import Mathlib

/-
Verification of the CIIS ML risk/anomaly pipeline.

Shallow embedding of the statistical logic of the `ml-models` package:
`risk_probability_model.py`, `anomaly_detection_model.py`,
`failure_prediction_model.py` and the risk endpoints of
`api_integration.py`.

Conventions of the embedding:
* Python floats are modelled as real numbers (`ℝ`); where every quantity
  involved is rational and decidable evaluation matters (the spike and
  temporal detectors, which only ever compare z-scores against fixed
  thresholds) we work in `ℚ` and carry the square `z²` of a z-score
  instead of `z` itself, since for a nonnegative threshold `t` and a
  positive variance `v` the source's test `|z| > t` with
  `z = (x − μ)/√v` is equivalent to `(x − μ)² / v > t²`, and the
  severity test `|z| > 3` to `z² > 9`.
* Timestamps (`created_at`) are modelled at the granularity the code
  consumes them: integer days for the daily-count series and integer
  hours for inter-arrival gaps.
* Fallible operations return `Except MlError _` (a raised Python
  exception becomes `.error _`); `pandas.Series.std()` of fewer than two
  samples, which is `NaN` in the source, is modelled as `Option.none`.
* sklearn estimators are external collaborators: their `predict` /
  `score_samples` / `predict_proba` are abstracted as oracle functions
  passed to the embedded methods, while the trained/untrained state
  transitions of the wrapping classes are modelled explicitly.
-/

namespace CIIS

/-! ### Errors raised by the models -/

/-- Exceptions the embedded methods can raise: `ValueError(msg)` raised
explicitly by the source, and sklearn's `NotFittedError`, raised by
`scaler.transform` / estimator calls on an unfitted object. -/
inductive MlError where
  | valueError (msg : String)
  | notFittedError
deriving DecidableEq

/-! ### Spike detection (`AnomalyDetectionModel.detect_spike_anomalies`) -/

/-- One record appended by `detect_spike_anomalies`.  The source stores the
float `z_score`; we store its square `z_score_sq = z²` (the sign of `z` is
`daily_count − expected_count`), which determines every comparison the code
makes. -/
structure SpikeAnomaly where
  building_id : String
  anomaly_date : ℤ
  daily_count : ℕ
  expected_count : ℚ
  z_score_sq : ℚ
  severity : String
deriving DecidableEq

/-- Issue rows of one building, projected to their `created_at` day
(`issues_df[issues_df['building_id'] == building_id]`). -/
def buildingIssueDays (issues : List (String × ℤ)) (b : String) : List ℤ :=
  (issues.filter (fun p => p.1 = b)).map (fun p => p.2)

/-- Daily-count time series of a building: the number of issues on each day
from the earliest to the latest issue day (missing days count 0), exactly
the `date_range` / `daily_counts` loop of the source.  The empty case is
unreachable from the source (pandas would raise on an empty series). -/
def dailySeries (days : List ℤ) : List ℕ :=
  match days with
  | [] => []
  | d :: ds =>
    let lo := ds.foldl min d
    let hi := ds.foldl max d
    let n := (hi - lo).toNat + 1
    (List.range n).map (fun i => (days.filter (fun e => e = lo + (i : ℤ))).length)

/-- First day of a building's series (`building_issues['created_at'].min()`). -/
def firstDay (days : List ℤ) : ℤ :=
  match days with
  | [] => 0
  | d :: ds => ds.foldl min d

/-- Centered rolling window of width `w` at index `i`, as produced by
`pd.Series(...).rolling(window=w, center=True)`: the values at positions
`i − (w−1)/2 … i + w/2`.  The detection loop only evaluates it at indices
where the window lies fully inside the series. -/
def rollingWindow (counts : List ℕ) (w i : ℕ) : List ℚ :=
  (List.range w).map (fun j => ((counts.getD (i - (w - 1) / 2 + j) 0 : ℕ) : ℚ))

/-- Mean of a centered rolling window (`rolling(...).mean()`). -/
def rollingMean (counts : List ℕ) (w i : ℕ) : ℚ :=
  (rollingWindow counts w i).sum / (w : ℚ)

/-- Squared rolling standard deviation (`rolling(...).std()²`, `ddof = 1`).
For `w = 1` the source value is `NaN` and this is `0`; both are skipped by
the guard `isna(std) or std == 0`. -/
def rollingVar (counts : List ℕ) (w i : ℕ) : ℚ :=
  ((rollingWindow counts w i).map (fun x => (x - rollingMean counts w i) ^ 2)).sum
    / ((w : ℚ) - 1)

/-- Inner scan of `detect_spike_anomalies` for one building: build the daily
series, require at least `2·w` days, and for each interior index
`i ∈ [w, n − w)` flag a `frequency_spike` when the rolling std is nonzero
and `|z| > t`, with severity `CRITICAL` iff `|z| > 3`. -/
def spikeScan (issues : List (String × ℤ)) (w : ℕ) (t : ℚ) (b : String) :
    List SpikeAnomaly :=
  let days := buildingIssueDays issues b
  let counts := dailySeries days
  if counts.length < w * 2 then []
  else
    (List.range' w (counts.length - 2 * w)).filterMap (fun i =>
      let v := rollingVar counts w i
      if v = 0 then none
      else
        let x : ℚ := (counts.getD i 0 : ℕ)
        let zsq := (x - rollingMean counts w i) ^ 2 / v
        if t ^ 2 < zsq then
          some { building_id := b
                 anomaly_date := firstDay days + (i : ℤ)
                 daily_count := counts.getD i 0
                 expected_count := rollingMean counts w i
                 z_score_sq := zsq
                 severity := if 9 < zsq then ("CRITICAL") else ("HIGH") }
        else none)

/-- `AnomalyDetectionModel.detect_spike_anomalies`: loops over all building
ids, first skipping any building with fewer than `window_days` issues
(`if len(building_issues) < window_days: continue`), then running the
series scan. -/
def detect_spike_anomalies (issues : List (String × ℤ)) (buildings : List String)
    (w : ℕ) (t : ℚ) : List SpikeAnomaly :=
  buildings.flatMap (fun b =>
    if (buildingIssueDays issues b).length < w then [] else spikeScan issues w t b)

/-- Modelled from the claim's words (not from the source): the spike
detector as the claim describes it, where the only exclusion is a
daily-count series shorter than `2·window_days` days — without the source's
additional `len(building_issues) < window_days` skip. -/
def claimSpikeAnomalies (issues : List (String × ℤ)) (buildings : List String)
    (w : ℕ) (t : ℚ) : List SpikeAnomaly :=
  buildings.flatMap (fun b => spikeScan issues w t b)

/-! ### Temporal detection (`AnomalyDetectionModel.detect_temporal_anomalies`) -/

/-- One record appended by `detect_temporal_anomalies`.  As for spikes we
store `z_score_sq = z²`; every flagged gap has `z < 0` (the gap is below the
mean), so `z = −√z_score_sq`. -/
structure TemporalAnomaly where
  building_id : String
  time_index : ℕ
  inter_arrival_hours : ℤ
  expected_hours : ℚ
  z_score_sq : ℚ
  severity : String
deriving DecidableEq

/-- Issue rows of one building projected to their `created_at` hour. -/
def buildingIssueHours (issues : List (String × ℤ)) (b : String) : List ℤ :=
  (issues.filter (fun p => p.1 = b)).map (fun p => p.2)

/-- Inter-arrival gaps in hours between consecutive issues sorted by
`created_at` (`np.diff(arrival_times)` after `sort_values`). -/
def temporalGaps (issues : List (String × ℤ)) (b : String) : List ℤ :=
  let times := (buildingIssueHours issues b).insertionSort (fun a c => a ≤ c)
  List.zipWith (fun a c => c - a) times times.tail

/-- Mean of the gaps (`np.mean`). -/
def gapMean (gaps : List ℤ) : ℚ :=
  ((gaps.map (fun g : ℤ => (g : ℚ))).sum) / (gaps.length : ℚ)

/-- Squared population standard deviation of the gaps (`np.std`, `ddof = 0`). -/
def gapVar (gaps : List ℤ) : ℚ :=
  ((gaps.map (fun g : ℤ => ((g : ℚ) - gapMean gaps) ^ 2)).sum) / (gaps.length : ℚ)

/-- Loop body of `detect_temporal_anomalies` for one enumerated gap
`p = (i, gap)` given the gap mean `μ` and squared gap std `v`: skip when
the std is zero, flag when `z = (gap − μ)/√v < −2` (equivalently
`gap < μ` and `(μ − gap)² > 4·v`), severity `HIGH` iff `z < −3`
(equivalently `(μ − gap)² > 9·v`). -/
def temporalCheck (b : String) (μ v : ℚ) (p : ℕ × ℤ) : Option TemporalAnomaly :=
  if v = 0 then none
  else if (p.2 : ℚ) < μ ∧ 4 * v < (μ - (p.2 : ℚ)) ^ 2 then
    some { building_id := b
           time_index := p.1
           inter_arrival_hours := p.2
           expected_hours := μ
           z_score_sq := (μ - (p.2 : ℚ)) ^ 2 / v
           severity := if 9 * v < (μ - (p.2 : ℚ)) ^ 2 then ("HIGH") else ("MEDIUM") }
  else none

/-- Per-building body of `detect_temporal_anomalies`: buildings with fewer
than 5 issues (or fewer than 2 gaps) are skipped; every enumerated
inter-arrival gap is then tested by `temporalCheck` against the mean and
(squared) population std of the building's gaps. -/
def temporalScan (issues : List (String × ℤ)) (b : String) : List TemporalAnomaly :=
  if (buildingIssueHours issues b).length < 5 then []
  else
    let gaps := temporalGaps issues b
    if gaps.length < 2 then []
    else gaps.enum.filterMap (temporalCheck b (gapMean gaps) (gapVar gaps))

/-- `AnomalyDetectionModel.detect_temporal_anomalies` over all buildings. -/
def detect_temporal_anomalies (issues : List (String × ℤ)) (buildings : List String) :
    List TemporalAnomaly :=
  buildings.flatMap (temporalScan issues)

/-! ### Model objects and their trained/untrained state -/

/-- Algorithm selector of `AnomalyDetectionModel.__init__` (an unknown
string raises `ValueError` at construction and never yields a model
object). -/
inductive AnomalyAlgorithm where
  | isolation_forest
  | one_class_svm
deriving DecidableEq

/-- State of an `AnomalyDetectionModel` object: which estimator was chosen,
the contamination, whether `self.model` is set (it always is after a
successful `__init__`), and whether estimator and scaler have been fitted
(by `train` or `load_model`). -/
structure AnomalyDetectionModelState where
  algorithm : AnomalyAlgorithm
  contamination : ℚ
  modelIsSet : Bool
  modelFitted : Bool
  scalerFitted : Bool
deriving DecidableEq

/-- `AnomalyDetectionModel.__init__` with a recognised algorithm: assigns an
(unfitted) estimator to `self.model` and a fresh (unfitted)
`StandardScaler` to `self.scaler`. -/
def anomalyModelInit (algorithm : AnomalyAlgorithm) (contamination : ℚ) :
    AnomalyDetectionModelState :=
  { algorithm := algorithm
    contamination := contamination
    modelIsSet := true
    modelFitted := false
    scalerFitted := false }

/-- Model type selector of `FailurePredictionModel.__init__`. -/
inductive FailureModelType where
  | xgboost
  | random_forest
  | gradient_boosting
deriving DecidableEq

/-- State of a `FailurePredictionModel` object. -/
structure FailurePredictionModelState where
  model_type : FailureModelType
  classifierIsSet : Bool
  classifierFitted : Bool
  scalerFitted : Bool
deriving DecidableEq

/-- `FailurePredictionModel.__init__` with a recognised model type: assigns
an unfitted classifier and an unfitted scaler. -/
def failureModelInit (model_type : FailureModelType) : FailurePredictionModelState :=
  { model_type := model_type
    classifierIsSet := true
    classifierFitted := false
    scalerFitted := false }

end CIIS

noncomputable section

namespace CIIS

/-! ### Real-valued statistics helpers -/

/-- Mean of a list of floats (`.mean()`). -/
def listMeanR (xs : List ℝ) : ℝ := xs.sum / xs.length

/-- Sample variance, `ddof = 1` (the square of `pandas.Series.std()`). -/
def sampleVarR (xs : List ℝ) : ℝ :=
  ((xs.map (fun x => (x - listMeanR xs) ^ 2)).sum) / ((xs.length : ℝ) - 1)

/-- `pandas.Series.std()` (`ddof = 1`): `NaN` — modelled as `none` — for
fewer than two samples, otherwise the square root of the sample variance. -/
def sampleStd (xs : List ℝ) : Option ℝ :=
  if xs.length ≤ 1 then none else some (Real.sqrt (sampleVarR xs))

/-- `np.std` (`ddof = 0`): population standard deviation. -/
def popStd (xs : List ℝ) : ℝ :=
  Real.sqrt (((xs.map (fun x => (x - listMeanR xs) ^ 2)).sum) / (xs.length : ℝ))

/-! ### `RiskProbabilityModel` (`risk_probability_model.py`) -/

/-- Clamp to `[0, 1]`: `max(0.0, min(1.0, x))`. -/
def clamp01 (x : ℝ) : ℝ := max 0 (min 1 x)

/-- State of a `RiskProbabilityModel` after `__init__`: the stored
(normalized) weights and the three fixed thresholds. -/
structure RiskModel where
  failure_weight : ℝ
  anomaly_weight : ℝ
  recency_weight : ℝ
  risk_threshold_critical : ℝ
  risk_threshold_high : ℝ
  risk_threshold_medium : ℝ

/-- `RiskProbabilityModel.__init__`: divides each weight by their total and
stores the thresholds `0.80 / 0.60 / 0.40`.  When the total is `0.0` the
Python division raises `ZeroDivisionError` and no object is constructed,
modelled as `none`. -/
def riskModelInit (failure_weight anomaly_weight recency_weight : ℝ) :
    Option RiskModel :=
  let total := failure_weight + anomaly_weight + recency_weight
  if total = 0 then none
  else
    some { failure_weight := failure_weight / total
           anomaly_weight := anomaly_weight / total
           recency_weight := recency_weight / total
           risk_threshold_critical := 0.8
           risk_threshold_high := 0.6
           risk_threshold_medium := 0.4 }

/-- Result record of `calculate_building_risk` (the wall-clock field
`calculated_at` is outside the embedding). -/
structure RiskScore where
  building_id : String
  risk_probability : ℝ
  risk_level : String
  action : String
  failure_component : ℝ
  anomaly_component : ℝ
  recency_component : ℝ
  composite_score : ℝ
  recent_critical_issues : ℤ

/-- The non-linear rescaling applied to the composite:
`1.0 / (1.0 + np.exp(-5 * (composite_risk - 0.5)))`. -/
def logistic5 (c : ℝ) : ℝ := 1 / (1 + Real.exp (-5 * (c - 0.5)))

/-- `RiskProbabilityModel.calculate_building_risk`: clamps the three
component scores, forms the weighted composite, rescales it through the
logistic, and assigns the level/action by the threshold chain. -/
def calculate_building_risk (m : RiskModel) (building_id : String)
    (failure_probability anomaly_probability issue_frequency_score : ℝ)
    (recent_high_severity_issues : ℤ) : RiskScore :=
  let failure_prob := clamp01 failure_probability
  let anomaly_prob := clamp01 anomaly_probability
  let freq_score := clamp01 issue_frequency_score
  let composite_risk :=
    m.failure_weight * failure_prob + m.anomaly_weight * anomaly_prob +
      m.recency_weight * freq_score
  let risk_probability := logistic5 composite_risk
  let level_action : String × String :=
    if m.risk_threshold_critical ≤ risk_probability then
      (("CRITICAL"), ("IMMEDIATE INTERVENTION REQUIRED"))
    else if m.risk_threshold_high ≤ risk_probability then
      (("HIGH"), ("URGENT MAINTENANCE REQUIRED"))
    else if m.risk_threshold_medium ≤ risk_probability then
      (("MEDIUM"), ("SCHEDULE MAINTENANCE"))
    else
      (("LOW"), ("ROUTINE MAINTENANCE"))
  { building_id := building_id
    risk_probability := risk_probability
    risk_level := level_action.1
    action := level_action.2
    failure_component := failure_prob
    anomaly_component := anomaly_prob
    recency_component := freq_score
    composite_score := composite_risk
    recent_critical_issues := recent_high_severity_issues }

/-! ### Issue-frequency score of the risk endpoint (`api_integration.py`) -/

/-- Per-building frequency score computed in `get_risk_scores`: `0` for a
building with no issues, otherwise the square-root normalization
`min(1, sqrt(n)/sqrt(100))` plus the critical-ratio boost
`min(0.2, (critical/n)·0.4)`, the sum clamped back to `1`. -/
def frequency_score (num_issues recent_critical : ℕ) : ℝ :=
  if num_issues = 0 then 0
  else
    let base := min 1 (Real.sqrt (num_issues : ℝ) / Real.sqrt 100)
    let critical_ratio := (recent_critical : ℝ) / (num_issues : ℝ)
    let critical_boost := min 0.2 (critical_ratio * 0.4)
    min 1 (base + critical_boost)

/-! ### `AnomalyDetectionModel.detect_anomalies` and the prediction API -/

/-- Batch minimum of the raw scores (`anomaly_scores.min()`). -/
def batchMin (scores : List ℝ) : ℝ := scores.foldl min (scores.headD 0)

/-- Batch maximum of the raw scores (`anomaly_scores.max()`). -/
def batchMax (scores : List ℝ) : ℝ := scores.foldl max (scores.headD 0)

/-- Per-batch rescaling of raw scores into anomaly probabilities:
`1 - (score - min)/(max - min)` when `max - min > 0`, otherwise all zeros. -/
def normalizeScores (scores : List ℝ) : List ℝ :=
  if 0 < batchMax scores - batchMin scores then
    scores.map (fun s => 1 - (s - batchMin scores) / (batchMax scores - batchMin scores))
  else
    scores.map (fun _ => 0)

/-- `AnomalyDetectionModel.detect_anomalies`.  The sklearn estimator is an
external collaborator, abstracted by the oracles `predictF` (its
`predict` composed with the scaler transform) and `scoreF` (its
`score_samples` likewise).  An unfitted scaler or estimator raises
`NotFittedError` inside the `try` block, which the source re-raises; the
explicit `self.model is None` guard raises `ValueError`; `numpy.min` of an
empty batch raises `ValueError`. -/
def detect_anomalies {α : Type} (st : AnomalyDetectionModelState)
    (predictF : α → ℤ) (scoreF : α → ℝ) (X : List α) :
    Except MlError (List ℤ × List ℝ × List ℝ) :=
  if st.modelIsSet = false then .error (.valueError ("Model not trained yet"))
  else if st.scalerFitted = false then .error .notFittedError
  else if st.modelFitted = false then .error .notFittedError
  else if X.isEmpty then .error (.valueError ("zero-size array to reduction operation"))
  else
    let predictions := X.map predictF
    let anomaly_scores := X.map scoreF
    .ok (predictions, anomaly_scores, normalizeScores anomaly_scores)

/-- `FailurePredictionModel.predict_failure_risk`, with the classifier
abstracted by oracles.  There is no explicit not-ready guard in the source:
on an untrained model the first failing call is `self.scaler.transform`,
which raises `NotFittedError`; an unfitted classifier likewise raises. -/
def predict_failure_risk {α : Type} (st : FailurePredictionModelState)
    (clfPredict : α → ℤ) (clfProba : α → ℝ) (X : List α) :
    Except MlError (List ℤ × List ℝ) :=
  if st.scalerFitted = false then .error .notFittedError
  else if st.classifierFitted = false then .error .notFittedError
  else .ok (X.map clfPredict, X.map clfProba)

/-! ### Ensembling in `PredictionAPI.get_anomalies` -/

/-- `ensemble_probs = (if_probs + svm_probs) / 2` (element-wise numpy mean
of the two detectors' probability vectors). -/
def ensemble_probs (if_probs svm_probs : List ℝ) : List ℝ :=
  List.zipWith (fun a b => (a + b) / 2) if_probs svm_probs

/-- One entry of the `anomalies` list built by `get_anomalies`. -/
structure AnomalyEntry where
  building_id : String
  anomaly_probability : ℝ
  anomaly_severity : String
  if_probability : ℝ
  svm_probability : ℝ

/-- Severity chain of `get_anomalies`: `CRITICAL` at `≥ 0.8`, `HIGH` at
`≥ 0.6`, else `MEDIUM` (entries only exist above `0.4`). -/
def anomalySeverityOf (p : ℝ) : String :=
  if 0.8 ≤ p then ("CRITICAL") else if 0.6 ≤ p then ("HIGH") else ("MEDIUM")

/-- Entry construction loop of `get_anomalies`: for each building index,
the ensembled probability is kept when it exceeds `0.4`, and the final list
is sorted by probability descending. -/
def buildAnomalyEntries (ids : List String) (if_probs svm_probs : List ℝ) :
    List AnomalyEntry :=
  let entries :=
    (List.zipWith (fun bp pq => (bp, pq)) (ids.zip (ensemble_probs if_probs svm_probs))
        (if_probs.zip svm_probs)).filterMap (fun e =>
      if 0.4 < e.1.2 then
        some { building_id := e.1.1
               anomaly_probability := e.1.2
               anomaly_severity := anomalySeverityOf e.1.2
               if_probability := e.2.1
               svm_probability := e.2.2 }
      else none)
  entries.insertionSort (fun a b => b.anomaly_probability ≤ a.anomaly_probability)

/-! ### `AnomalyFeatureEngineer.engineer_anomaly_features` -/

/-- One issue row as consumed by the feature engineer: building id,
`created_at` in hours, and severity. -/
structure IssueRec where
  building_id : String
  created_hour : ℤ
  severity : ℤ
deriving DecidableEq

/-- Calendar date of an issue (`created_at.dt.date`), as a day number. -/
def issueDay (i : IssueRec) : ℤ := Int.fdiv i.created_hour 24

/-- The five per-building feature values.  The three fields produced by
`pandas.Series.std()` are `Option ℝ` because that std is `NaN` (`none`)
when there are fewer than two samples. -/
structure AnomalyFeatures where
  issue_frequency_variance : Option ℝ
  issue_severity_variance : Option ℝ
  inter_arrival_variance : ℝ
  daily_issue_std : Option ℝ
  weekly_issue_coefficient_variation : ℝ

/-- Daily issue counts of a building
(`building_issues.groupby(created_at.dt.date).size()`): one count per
distinct issue day.  Split into a decidable `ℕ`-valued core and a cast. -/
def dailyCountNats (issues : List IssueRec) (b : String) : List ℕ :=
  let days := (issues.filter (fun i => i.building_id = b)).map issueDay
  days.dedup.map (fun d => (days.filter (fun e => e = d)).length)

/-- Daily issue counts as floats (the series whose `std` and `mean` the
feature engineer takes). -/
def dailyCountsOf (issues : List IssueRec) (b : String) : List ℝ :=
  (dailyCountNats issues b).map (fun n : ℕ => (n : ℝ))

/-- Severities of a building's issues as floats. -/
def severitiesOf (issues : List IssueRec) (b : String) : List ℝ :=
  (issues.filter (fun i => i.building_id = b)).map (fun i => (i.severity : ℝ))

/-- Sorted inter-arrival gaps of a building in whole hours. -/
def interArrivalsOf (issues : List IssueRec) (b : String) : List ℝ :=
  let hrs := ((issues.filter (fun i => i.building_id = b)).map
      (fun i => i.created_hour)).insertionSort (fun a c => a ≤ c)
  List.zipWith (fun a c => ((c - a : ℤ) : ℝ)) hrs hrs.tail

/-- Weekly issue counts of a building, grouped by the calendar's ISO week
number (`created_at.dt.isocalendar().week`); the calendar is an external
collaborator abstracted by `isoWeek`. -/
def weeklyCountsOf (isoWeek : ℤ → ℤ) (issues : List IssueRec) (b : String) : List ℝ :=
  let wks := (issues.filter (fun i => i.building_id = b)).map (fun i => isoWeek (issueDay i))
  wks.dedup.map (fun wk => ((wks.filter (fun e => e = wk)).length : ℝ))

/-- Per-building body of `engineer_anomaly_features`: a building with zero
issues gets all five features set to `0`; otherwise each feature is
computed as in the source (note every coefficient of variation divides by
`mean + 1`, not by `mean`). -/
def anomalyFeaturesOf (isoWeek : ℤ → ℤ) (issues : List IssueRec) (b : String) :
    AnomalyFeatures :=
  if (issues.filter (fun i => i.building_id = b)).length = 0 then
    { issue_frequency_variance := some 0
      issue_severity_variance := some 0
      inter_arrival_variance := 0
      daily_issue_std := some 0
      weekly_issue_coefficient_variation := 0 }
  else
    let daily_counts := dailyCountsOf issues b
    let sevs := severitiesOf issues b
    let gaps := interArrivalsOf issues b
    let weekly := weeklyCountsOf isoWeek issues b
    { issue_frequency_variance :=
        (sampleStd daily_counts).map (fun s => s / (listMeanR daily_counts + 1))
      issue_severity_variance :=
        (sampleStd sevs).map (fun s => s / (listMeanR sevs + 1))
      inter_arrival_variance :=
        if 1 < (issues.filter (fun i => i.building_id = b)).length then
          popStd gaps / (listMeanR gaps + 1)
        else 0
      daily_issue_std := sampleStd daily_counts
      weekly_issue_coefficient_variation :=
        if 1 < weekly.length then
          ((sampleStd weekly).getD 0) / (listMeanR weekly + 1)
        else 0 }

/-- `AnomalyFeatureEngineer.engineer_anomaly_features`: one feature record
per building row. -/
def engineer_anomaly_features (isoWeek : ℤ → ℤ) (issues : List IssueRec)
    (buildings : List String) : List (String × AnomalyFeatures) :=
  buildings.map (fun b => (b, anomalyFeaturesOf isoWeek issues b))

/-! ### Concrete data used by witnesses and counterexamples -/

/-- The weight configuration `(0.4, 0.3, 0.3)` (the constructor default) as
stored by `riskModelInit`. -/
def demoRiskModel : RiskModel :=
  { failure_weight := 0.4 / (0.4 + 0.3 + 0.3)
    anomaly_weight := 0.3 / (0.4 + 0.3 + 0.3)
    recency_weight := 0.3 / (0.4 + 0.3 + 0.3)
    risk_threshold_critical := 0.8
    risk_threshold_high := 0.6
    risk_threshold_medium := 0.4 }

/-- The weight configuration `(2, −1, 0)` as stored by `riskModelInit` (its
total is `1`, so it is accepted unchanged). -/
def negWeightModel : RiskModel :=
  { failure_weight := 2 / (2 + (-1) + 0)
    anomaly_weight := (-1) / (2 + (-1) + 0)
    recency_weight := 0 / (2 + (-1) + 0)
    risk_threshold_critical := 0.8
    risk_threshold_high := 0.6
    risk_threshold_medium := 0.4 }

/-- An `AnomalyDetectionModel` that has been trained (scaler and estimator
fitted), for concrete instantiations. -/
def demoAnomalyTrained : AnomalyDetectionModelState :=
  { algorithm := .isolation_forest
    contamination := 1 / 10
    modelIsSet := true
    modelFitted := true
    scalerFitted := true }

/-- Nine issues of one building: single issues on days 0, 5, 15, 20 and a
burst of five issues on day 10. -/
def spikeIssuesNine : List (String × ℤ) :=
  [(("B"), 0), (("B"), 5), (("B"), 10), (("B"), 10), (("B"), 10), (("B"), 10),
    (("B"), 10), (("B"), 15), (("B"), 20)]

/-- Six issues of one building: one on day 0, four on day 10, one on
day 20 — fewer than the default `window_days = 7` issues, but spanning a
21-day series. -/
def spikeIssuesSix : List (String × ℤ) :=
  [(("B"), 0), (("B"), 10), (("B"), 10), (("B"), 10), (("B"), 10), (("B"), 20)]

/-- Five issues of one building arriving exactly 24 hours apart (uniform
inter-arrival gaps). -/
def temporalIssuesUniform : List (String × ℤ) :=
  [(("B"), 0), (("B"), 24), (("B"), 48), (("B"), 72), (("B"), 96)]

/-- Eight issues of one building: one per day on days 0, 1, 2 and five on
day 3, every severity 1: the daily counts are `[1, 1, 1, 5]` with mean 2
and sample standard deviation 2. -/
def featIssuesDemo : List IssueRec :=
  [⟨("B"), 0, 1⟩, ⟨("B"), 24, 1⟩, ⟨("B"), 48, 1⟩, ⟨("B"), 72, 1⟩,
    ⟨("B"), 73, 1⟩, ⟨("B"), 74, 1⟩, ⟨("B"), 75, 1⟩, ⟨("B"), 76, 1⟩]

end CIIS

end

namespace CIIS

/-! ### Basic facts about the clamp and the logistic rescaling -/

lemma clamp01_nonneg (x : ℝ) : 0 ≤ clamp01 x := le_max_left 0 _

lemma clamp01_le_one (x : ℝ) : clamp01 x ≤ 1 := max_le (by norm_num) (min_le_left 1 x)

lemma logistic5_pos (c : ℝ) : 0 < logistic5 c := by
  unfold logistic5
  positivity

lemma logistic5_lt_one (c : ℝ) : logistic5 c < 1 := by
  unfold logistic5
  rw [div_lt_one (by positivity)]
  linarith [Real.exp_pos (-5 * (c - 0.5))]

lemma logistic5_le_logistic5 {a b : ℝ} (h : a ≤ b) : logistic5 a ≤ logistic5 b := by
  unfold logistic5
  have h2 : Real.exp (-5 * (b - 0.5)) ≤ Real.exp (-5 * (a - 0.5)) :=
    Real.exp_le_exp.mpr (by linarith)
  exact one_div_le_one_div_of_le (by positivity) (by linarith)

lemma logistic5_lt_logistic5 {a b : ℝ} (h : a < b) : logistic5 a < logistic5 b := by
  unfold logistic5
  have h2 : Real.exp (-5 * (b - 0.5)) < Real.exp (-5 * (a - 0.5)) :=
    Real.exp_lt_exp.mpr (by linarith)
  exact one_div_lt_one_div_of_lt (by positivity) (by linarith)

lemma logistic5_crit_iff (c : ℝ) : 0.8 ≤ logistic5 c ↔ 0.5 + Real.log 4 / 5 ≤ c := by
  unfold logistic5
  have hE : 0 < Real.exp (-5 * (c - 0.5)) := Real.exp_pos _
  rw [le_div_iff (by positivity)]
  have hlog : Real.log (1 / 4 : ℝ) = -Real.log 4 := by
    rw [show (1 / 4 : ℝ) = 4⁻¹ by norm_num, Real.log_inv]
  constructor
  · intro h
    have h1 : Real.exp (-5 * (c - 0.5)) ≤ 1 / 4 := by linarith
    have h2 := (Real.le_log_iff_exp_le (by norm_num : (0:ℝ) < 1 / 4)).mpr h1
    rw [hlog] at h2
    linarith
  · intro h
    have h2 : -5 * (c - 0.5) ≤ Real.log (1 / 4 : ℝ) := by rw [hlog]; linarith
    have h1 := (Real.le_log_iff_exp_le (by norm_num : (0:ℝ) < 1 / 4)).mp h2
    linarith

/-! ### Destructing a successful `riskModelInit` -/

lemma riskModelInit_some {f a r : ℝ} {m : RiskModel}
    (hm : riskModelInit f a r = some m) :
    f + a + r ≠ 0 ∧
      m = { failure_weight := f / (f + a + r)
            anomaly_weight := a / (f + a + r)
            recency_weight := r / (f + a + r)
            risk_threshold_critical := 0.8
            risk_threshold_high := 0.6
            risk_threshold_medium := 0.4 } := by
  unfold riskModelInit at hm
  by_cases h : f + a + r = 0
  · simp [h] at hm
  · simp [h] at hm
    exact ⟨h, hm.symm⟩

lemma riskModelInit_weights_sum {f a r : ℝ} {m : RiskModel}
    (hm : riskModelInit f a r = some m) :
    m.failure_weight + m.anomaly_weight + m.recency_weight = 1 := by
  obtain ⟨h, rfl⟩ := riskModelInit_some hm
  show f / (f + a + r) + a / (f + a + r) + r / (f + a + r) = 1
  rw [div_add_div_same, div_add_div_same, div_self h]

/-! ### Projections of `calculate_building_risk` -/

lemma cbr_components (m : RiskModel) (bid : String) (fp ap fs : ℝ) (rc : ℤ) :
    (calculate_building_risk m bid fp ap fs rc).failure_component = clamp01 fp ∧
    (calculate_building_risk m bid fp ap fs rc).anomaly_component = clamp01 ap ∧
    (calculate_building_risk m bid fp ap fs rc).recency_component = clamp01 fs ∧
    (calculate_building_risk m bid fp ap fs rc).composite_score =
      m.failure_weight * clamp01 fp + m.anomaly_weight * clamp01 ap +
        m.recency_weight * clamp01 fs ∧
    (calculate_building_risk m bid fp ap fs rc).risk_probability =
      logistic5 ((calculate_building_risk m bid fp ap fs rc).composite_score) :=
  ⟨rfl, rfl, rfl, rfl, rfl⟩

lemma cbr_level_spec (m : RiskModel) (hc : m.risk_threshold_critical = 0.8)
    (hh : m.risk_threshold_high = 0.6) (hd : m.risk_threshold_medium = 0.4)
    (bid : String) (fp ap fs : ℝ) (rc : ℤ) :
    ((calculate_building_risk m bid fp ap fs rc).risk_level = "CRITICAL" ↔
      0.8 ≤ (calculate_building_risk m bid fp ap fs rc).risk_probability) ∧
    ((calculate_building_risk m bid fp ap fs rc).risk_level = "HIGH" ↔
      0.6 ≤ (calculate_building_risk m bid fp ap fs rc).risk_probability ∧
        (calculate_building_risk m bid fp ap fs rc).risk_probability < 0.8) ∧
    ((calculate_building_risk m bid fp ap fs rc).risk_level = "MEDIUM" ↔
      0.4 ≤ (calculate_building_risk m bid fp ap fs rc).risk_probability ∧
        (calculate_building_risk m bid fp ap fs rc).risk_probability < 0.6) ∧
    ((calculate_building_risk m bid fp ap fs rc).risk_level = "LOW" ↔
      (calculate_building_risk m bid fp ap fs rc).risk_probability < 0.4) ∧
    ((calculate_building_risk m bid fp ap fs rc).risk_level = "CRITICAL" →
      (calculate_building_risk m bid fp ap fs rc).action = "IMMEDIATE INTERVENTION REQUIRED") ∧
    ((calculate_building_risk m bid fp ap fs rc).risk_level = "HIGH" →
      (calculate_building_risk m bid fp ap fs rc).action = "URGENT MAINTENANCE REQUIRED") ∧
    ((calculate_building_risk m bid fp ap fs rc).risk_level = "MEDIUM" →
      (calculate_building_risk m bid fp ap fs rc).action = "SCHEDULE MAINTENANCE") ∧
    ((calculate_building_risk m bid fp ap fs rc).risk_level = "LOW" →
      (calculate_building_risk m bid fp ap fs rc).action = "ROUTINE MAINTENANCE") := by
  have hlv : (calculate_building_risk m bid fp ap fs rc).risk_level =
      (if m.risk_threshold_critical ≤ (calculate_building_risk m bid fp ap fs rc).risk_probability
        then ((("CRITICAL") : String), (("IMMEDIATE INTERVENTION REQUIRED") : String))
        else if m.risk_threshold_high ≤ (calculate_building_risk m bid fp ap fs rc).risk_probability
          then (("HIGH"), ("URGENT MAINTENANCE REQUIRED"))
          else if m.risk_threshold_medium ≤
              (calculate_building_risk m bid fp ap fs rc).risk_probability
            then (("MEDIUM"), ("SCHEDULE MAINTENANCE"))
            else (("LOW"), ("ROUTINE MAINTENANCE"))).1 := rfl
  have hac : (calculate_building_risk m bid fp ap fs rc).action =
      (if m.risk_threshold_critical ≤ (calculate_building_risk m bid fp ap fs rc).risk_probability
        then ((("CRITICAL") : String), (("IMMEDIATE INTERVENTION REQUIRED") : String))
        else if m.risk_threshold_high ≤ (calculate_building_risk m bid fp ap fs rc).risk_probability
          then (("HIGH"), ("URGENT MAINTENANCE REQUIRED"))
          else if m.risk_threshold_medium ≤
              (calculate_building_risk m bid fp ap fs rc).risk_probability
            then (("MEDIUM"), ("SCHEDULE MAINTENANCE"))
            else (("LOW"), ("ROUTINE MAINTENANCE"))).2 := rfl
  rw [hc, hh, hd] at hlv hac
  set rp := (calculate_building_risk m bid fp ap fs rc).risk_probability with hrpdef
  by_cases h1 : (0.8:ℝ) ≤ rp
  · rw [if_pos h1] at hlv hac
    exact ⟨iff_of_true hlv h1,
      iff_of_false (by rw [hlv]; decide) (fun hx => absurd h1 (not_le.mpr hx.2)),
      iff_of_false (by rw [hlv]; decide)
        (fun hx => absurd h1 (not_le.mpr (lt_of_lt_of_le hx.2 (by norm_num)))),
      iff_of_false (by rw [hlv]; decide)
        (fun hx => absurd h1 (not_le.mpr (lt_of_lt_of_le hx (by norm_num)))),
      fun _ => hac,
      fun h => absurd h (by rw [hlv]; decide),
      fun h => absurd h (by rw [hlv]; decide),
      fun h => absurd h (by rw [hlv]; decide)⟩
  · by_cases h2 : (0.6:ℝ) ≤ rp
    · rw [if_neg h1, if_pos h2] at hlv hac
      exact ⟨iff_of_false (by rw [hlv]; decide) h1,
        iff_of_true hlv ⟨h2, not_le.mp h1⟩,
        iff_of_false (by rw [hlv]; decide) (fun hx => absurd h2 (not_le.mpr hx.2)),
        iff_of_false (by rw [hlv]; decide)
          (fun hx => absurd h2 (not_le.mpr (lt_of_lt_of_le hx (by norm_num)))),
        fun h => absurd h (by rw [hlv]; decide),
        fun _ => hac,
        fun h => absurd h (by rw [hlv]; decide),
        fun h => absurd h (by rw [hlv]; decide)⟩
    · by_cases h3 : (0.4:ℝ) ≤ rp
      · rw [if_neg h1, if_neg h2, if_pos h3] at hlv hac
        exact ⟨iff_of_false (by rw [hlv]; decide) h1,
          iff_of_false (by rw [hlv]; decide) (fun hx => h2 hx.1),
          iff_of_true hlv ⟨h3, not_le.mp h2⟩,
          iff_of_false (by rw [hlv]; decide) (fun hx => absurd h3 (not_le.mpr hx)),
          fun h => absurd h (by rw [hlv]; decide),
          fun h => absurd h (by rw [hlv]; decide),
          fun _ => hac,
          fun h => absurd h (by rw [hlv]; decide)⟩
      · rw [if_neg h1, if_neg h2, if_neg h3] at hlv hac
        exact ⟨iff_of_false (by rw [hlv]; decide) h1,
          iff_of_false (by rw [hlv]; decide) (fun hx => h2 hx.1),
          iff_of_false (by rw [hlv]; decide) (fun hx => h3 hx.1),
          iff_of_true hlv (not_le.mp h3),
          fun h => absurd h (by rw [hlv]; decide),
          fun h => absurd h (by rw [hlv]; decide),
          fun h => absurd h (by rw [hlv]; decide),
          fun _ => hac⟩

/-- C1: for every weight configuration accepted by the constructor and all
real inputs, `calculate_building_risk` clamps each component to `[0, 1]`,
forms the composite from the normalized weights (which sum to 1), returns
`risk_probability = 1/(1+exp(−5·(composite−0.5)))` lying in `[0, 1]`, and
assigns `CRITICAL`/`HIGH`/`MEDIUM`/`LOW` exactly by the `0.8/0.6/0.4`
thresholds, each level paired with its fixed action label. -/
theorem C1_calculate_building_risk_contract
    (f a r : ℝ) (m : RiskModel) (hm : riskModelInit f a r = some m)
    (bid : String) (fp ap fs : ℝ) (rc : ℤ) :
    (calculate_building_risk m bid fp ap fs rc).failure_component = clamp01 fp ∧
    (calculate_building_risk m bid fp ap fs rc).anomaly_component = clamp01 ap ∧
    (calculate_building_risk m bid fp ap fs rc).recency_component = clamp01 fs ∧
    (0 ≤ clamp01 fp ∧ clamp01 fp ≤ 1) ∧
    (0 ≤ clamp01 ap ∧ clamp01 ap ≤ 1) ∧
    (0 ≤ clamp01 fs ∧ clamp01 fs ≤ 1) ∧
    m.failure_weight + m.anomaly_weight + m.recency_weight = 1 ∧
    (calculate_building_risk m bid fp ap fs rc).composite_score =
      m.failure_weight * clamp01 fp + m.anomaly_weight * clamp01 ap +
        m.recency_weight * clamp01 fs ∧
    (calculate_building_risk m bid fp ap fs rc).risk_probability =
      1 / (1 + Real.exp (-5 * ((calculate_building_risk m bid fp ap fs rc).composite_score - 0.5))) ∧
    (0 ≤ (calculate_building_risk m bid fp ap fs rc).risk_probability ∧
      (calculate_building_risk m bid fp ap fs rc).risk_probability ≤ 1) ∧
    ((calculate_building_risk m bid fp ap fs rc).risk_level = "CRITICAL" ↔
      0.8 ≤ (calculate_building_risk m bid fp ap fs rc).risk_probability) ∧
    ((calculate_building_risk m bid fp ap fs rc).risk_level = "HIGH" ↔
      0.6 ≤ (calculate_building_risk m bid fp ap fs rc).risk_probability ∧
        (calculate_building_risk m bid fp ap fs rc).risk_probability < 0.8) ∧
    ((calculate_building_risk m bid fp ap fs rc).risk_level = "MEDIUM" ↔
      0.4 ≤ (calculate_building_risk m bid fp ap fs rc).risk_probability ∧
        (calculate_building_risk m bid fp ap fs rc).risk_probability < 0.6) ∧
    ((calculate_building_risk m bid fp ap fs rc).risk_level = "LOW" ↔
      (calculate_building_risk m bid fp ap fs rc).risk_probability < 0.4) ∧
    ((calculate_building_risk m bid fp ap fs rc).risk_level = "CRITICAL" →
      (calculate_building_risk m bid fp ap fs rc).action = "IMMEDIATE INTERVENTION REQUIRED") ∧
    ((calculate_building_risk m bid fp ap fs rc).risk_level = "HIGH" →
      (calculate_building_risk m bid fp ap fs rc).action = "URGENT MAINTENANCE REQUIRED") ∧
    ((calculate_building_risk m bid fp ap fs rc).risk_level = "MEDIUM" →
      (calculate_building_risk m bid fp ap fs rc).action = "SCHEDULE MAINTENANCE") ∧
    ((calculate_building_risk m bid fp ap fs rc).risk_level = "LOW" →
      (calculate_building_risk m bid fp ap fs rc).action = "ROUTINE MAINTENANCE") := by
  obtain ⟨ht, hmv⟩ := riskModelInit_some hm
  have hthr : m.risk_threshold_critical = 0.8 ∧ m.risk_threshold_high = 0.6 ∧
      m.risk_threshold_medium = 0.4 := by rw [hmv]; exact ⟨rfl, rfl, rfl⟩
  obtain ⟨hC, hH, hM, hL, aC, aH, aM, aL⟩ :=
    cbr_level_spec m hthr.1 hthr.2.1 hthr.2.2 bid fp ap fs rc
  obtain ⟨e1, e2, e3, e4, e5⟩ := cbr_components m bid fp ap fs rc
  refine ⟨e1, e2, e3, ⟨clamp01_nonneg fp, clamp01_le_one fp⟩,
    ⟨clamp01_nonneg ap, clamp01_le_one ap⟩, ⟨clamp01_nonneg fs, clamp01_le_one fs⟩,
    riskModelInit_weights_sum hm, e4, ?_, ?_, hC, hH, hM, hL, aC, aH, aM, aL⟩
  · rw [e5]; rfl
  · rw [e5]
    exact ⟨le_of_lt (logistic5_pos _), le_of_lt (logistic5_lt_one _)⟩

/-- Witness for C1 at the default weights `(0.4, 0.3, 0.3)` and inputs
`(0.9, 0.2, 0.5)`. -/
theorem C1_witness :
    riskModelInit 0.4 0.3 0.3 = some demoRiskModel ∧
    0 ≤ (calculate_building_risk demoRiskModel ("B1") 0.9 0.2 0.5 1).risk_probability ∧
    (calculate_building_risk demoRiskModel ("B1") 0.9 0.2 0.5 1).risk_probability ≤ 1 := by
  have hinit : riskModelInit 0.4 0.3 0.3 = some demoRiskModel := by
    unfold riskModelInit demoRiskModel
    rw [if_neg (by norm_num)]
  have h := C1_calculate_building_risk_contract 0.4 0.3 0.3 demoRiskModel hinit
    ("B1") 0.9 0.2 0.5 1
  exact ⟨hinit, h.2.2.2.2.2.2.2.2.2.1⟩

/-- C2 counterexample: at the weight choice `(0, 0, 0)` the constructor's
division by the zero total raises `ZeroDivisionError`, so no model with
weights summing to 1 is ever stored. -/
theorem C2_counterexample :
    ¬ ∃ m : RiskModel, riskModelInit 0 0 0 = some m ∧
      m.failure_weight + m.anomaly_weight + m.recency_weight = 1 := by
  rintro ⟨m, hm, -⟩
  unfold riskModelInit at hm
  norm_num at hm
  exact Option.noConfusion hm

/-- C2 (amended): for every choice of the three constructor weights whose
sum is nonzero, construction succeeds and the stored weights sum to
exactly 1, regardless of the scale of the inputs. -/
theorem C2_weights_renormalized (f a r : ℝ) (h : f + a + r ≠ 0) :
    ∃ m : RiskModel, riskModelInit f a r = some m ∧
      m.failure_weight + m.anomaly_weight + m.recency_weight = 1 := by
  refine ⟨{ failure_weight := f / (f + a + r)
            anomaly_weight := a / (f + a + r)
            recency_weight := r / (f + a + r)
            risk_threshold_critical := 0.8
            risk_threshold_high := 0.6
            risk_threshold_medium := 0.4 }, ?_, ?_⟩
  · unfold riskModelInit
    rw [if_neg h]
  · show f / (f + a + r) + a / (f + a + r) + r / (f + a + r) = 1
    rw [div_add_div_same, div_add_div_same, div_self h]

/-- Witness for C2 at the (non-unit-scale) weights `(2, 1, 1)`. -/
theorem C2_witness :
    (2:ℝ) + 1 + 1 ≠ 0 ∧
    ∃ m : RiskModel, riskModelInit 2 1 1 = some m ∧
      m.failure_weight + m.anomaly_weight + m.recency_weight = 1 :=
  ⟨by norm_num, C2_weights_renormalized 2 1 1 (by norm_num)⟩

/-- C10 counterexample: the constructor accepts the weight configuration
`(2, −1, 0)` (its total is 1), and with failure probability 1 the composite
is 2, pushing `risk_probability` above the claimed upper bound
`1/(1+e^{−2.5})`. -/
theorem C10_counterexample :
    riskModelInit 2 (-1) 0 = some negWeightModel ∧
    1 / (1 + Real.exp (-(5 / 2))) <
      (calculate_building_risk negWeightModel ("B") 1 0 0 0).risk_probability := by
  constructor
  · unfold riskModelInit negWeightModel
    rw [if_neg (by norm_num)]
  · have hcomp : (calculate_building_risk negWeightModel ("B") 1 0 0 0).composite_score = 2 := by
      show negWeightModel.failure_weight * clamp01 1 + negWeightModel.anomaly_weight * clamp01 0 +
        negWeightModel.recency_weight * clamp01 0 = 2
      unfold negWeightModel clamp01
      norm_num
    have hrp : (calculate_building_risk negWeightModel ("B") 1 0 0 0).risk_probability =
        logistic5 2 := by
      rw [(cbr_components negWeightModel ("B") 1 0 0 0).2.2.2.2, hcomp]
    rw [hrp, show (1:ℝ) / (1 + Real.exp (-(5 / 2))) = logistic5 1 by unfold logistic5; norm_num]
    exact logistic5_lt_logistic5 (by norm_num)

/-- C10 (amended): for every weight configuration with nonnegative weights
accepted by the constructor, `risk_probability` lies in
`[1/(1+e^{2.5}), 1/(1+e^{−2.5})]` and never equals 0 or 1, and `CRITICAL`
is assigned only when the composite is at least `0.5 + ln(4)/5`. -/
theorem C10_risk_probability_range
    (f a r : ℝ) (m : RiskModel) (hm : riskModelInit f a r = some m)
    (hf : 0 ≤ f) (ha : 0 ≤ a) (hr : 0 ≤ r)
    (bid : String) (fp ap fs : ℝ) (rc : ℤ) :
    1 / (1 + Real.exp (5 / 2)) ≤ (calculate_building_risk m bid fp ap fs rc).risk_probability ∧
    (calculate_building_risk m bid fp ap fs rc).risk_probability ≤ 1 / (1 + Real.exp (-(5 / 2))) ∧
    (calculate_building_risk m bid fp ap fs rc).risk_probability ≠ 0 ∧
    (calculate_building_risk m bid fp ap fs rc).risk_probability ≠ 1 ∧
    ((calculate_building_risk m bid fp ap fs rc).risk_level = "CRITICAL" →
      0.5 + Real.log 4 / 5 ≤ (calculate_building_risk m bid fp ap fs rc).composite_score) := by
  obtain ⟨ht, hmv⟩ := riskModelInit_some hm
  have htpos : 0 < f + a + r := lt_of_le_of_ne (by linarith) (Ne.symm ht)
  have hwf : 0 ≤ m.failure_weight := by rw [hmv]; exact div_nonneg hf (le_of_lt htpos)
  have hwa : 0 ≤ m.anomaly_weight := by rw [hmv]; exact div_nonneg ha (le_of_lt htpos)
  have hwr : 0 ≤ m.recency_weight := by rw [hmv]; exact div_nonneg hr (le_of_lt htpos)
  have hsum := riskModelInit_weights_sum hm
  obtain ⟨e1, e2, e3, e4, e5⟩ := cbr_components m bid fp ap fs rc
  have hcomp0 : 0 ≤ (calculate_building_risk m bid fp ap fs rc).composite_score := by
    rw [e4]
    have := clamp01_nonneg fp
    have := clamp01_nonneg ap
    have := clamp01_nonneg fs
    positivity
  have hcomp1 : (calculate_building_risk m bid fp ap fs rc).composite_score ≤ 1 := by
    rw [e4]
    have b1 : m.failure_weight * clamp01 fp ≤ m.failure_weight * 1 :=
      mul_le_mul_of_nonneg_left (clamp01_le_one fp) hwf
    have b2 : m.anomaly_weight * clamp01 ap ≤ m.anomaly_weight * 1 :=
      mul_le_mul_of_nonneg_left (clamp01_le_one ap) hwa
    have b3 : m.recency_weight * clamp01 fs ≤ m.recency_weight * 1 :=
      mul_le_mul_of_nonneg_left (clamp01_le_one fs) hwr
    nlinarith [hsum]
  have hlo : 1 / (1 + Real.exp (5 / 2)) =
      logistic5 0 := by unfold logistic5; norm_num
  have hhi : 1 / (1 + Real.exp (-(5 / 2))) = logistic5 1 := by unfold logistic5; norm_num
  have hthr : m.risk_threshold_critical = 0.8 ∧ m.risk_threshold_high = 0.6 ∧
      m.risk_threshold_medium = 0.4 := by rw [hmv]; exact ⟨rfl, rfl, rfl⟩
  obtain ⟨hC, -, -, -, -, -, -, -⟩ :=
    cbr_level_spec m hthr.1 hthr.2.1 hthr.2.2 bid fp ap fs rc
  refine ⟨?_, ?_, ?_, ?_, ?_⟩
  · rw [hlo, e5]
    exact logistic5_le_logistic5 hcomp0
  · rw [hhi, e5]
    exact logistic5_le_logistic5 hcomp1
  · rw [e5]
    exact ne_of_gt (logistic5_pos _)
  · rw [e5]
    exact ne_of_lt (logistic5_lt_one _)
  · intro hcrit
    have h8 : (0.8:ℝ) ≤ (calculate_building_risk m bid fp ap fs rc).risk_probability :=
      hC.mp hcrit
    rw [e5] at h8
    exact (logistic5_crit_iff _).mp h8

/-- Witness for C10 at the default nonnegative weights `(0.4, 0.3, 0.3)`. -/
theorem C10_witness :
    riskModelInit 0.4 0.3 0.3 = some demoRiskModel ∧
    (0:ℝ) ≤ 0.4 ∧ (0:ℝ) ≤ 0.3 ∧
    (calculate_building_risk demoRiskModel ("B1") 1 1 1 0).risk_probability ≤
      1 / (1 + Real.exp (-(5 / 2))) := by
  have hinit : riskModelInit 0.4 0.3 0.3 = some demoRiskModel := by
    unfold riskModelInit demoRiskModel
    rw [if_neg (by norm_num)]
  have h := C10_risk_probability_range 0.4 0.3 0.3 demoRiskModel hinit
    (by norm_num) (by norm_num) (by norm_num) ("B1") 1 1 1 0
  exact ⟨hinit, by norm_num, by norm_num, h.2.1⟩

/-! ### The issue-frequency score of the risk endpoint -/

lemma sqrt_hundred : Real.sqrt 100 = 10 := by
  rw [show (100:ℝ) = 10 ^ 2 by norm_num, Real.sqrt_sq (by norm_num : (0:ℝ) ≤ 10)]

/-- C3: the per-building frequency score of the risk endpoint equals the
square-root normalization `min(1, √n/√100)` plus the critical-ratio boost
`min(0.2, (c/n)·0.4)`, clamped to 1; in particular 50 issues with none
critical give exactly `√50/√100 (≈ 0.707)`, and 100 issues all critical
give exactly 1. -/
theorem C3_frequency_score_formula :
    (∀ n c : ℕ, 1 ≤ n →
      frequency_score n c =
        min 1 (min 1 (Real.sqrt (n : ℝ) / Real.sqrt 100) +
          min 0.2 ((c : ℝ) / (n : ℝ) * 0.4))) ∧
    frequency_score 50 0 = Real.sqrt 50 / Real.sqrt 100 ∧
    frequency_score 100 100 = 1 := by
  refine ⟨?_, ?_, ?_⟩
  · intro n c hn
    unfold frequency_score
    rw [if_neg (by omega : ¬ n = 0)]
  · unfold frequency_score
    rw [if_neg (by norm_num : ¬ (50:ℕ) = 0)]
    have hq : Real.sqrt ((50:ℕ) : ℝ) / Real.sqrt 100 ≤ 1 := by
      rw [div_le_one (by rw [sqrt_hundred]; norm_num)]
      exact Real.sqrt_le_sqrt (by norm_num)
    show min 1 (min 1 (Real.sqrt ((50:ℕ) : ℝ) / Real.sqrt 100) +
        min 0.2 (((0:ℕ) : ℝ) / ((50:ℕ) : ℝ) * 0.4)) = Real.sqrt 50 / Real.sqrt 100
    rw [min_eq_right hq,
      show min (0.2:ℝ) (((0:ℕ) : ℝ) / ((50:ℕ) : ℝ) * 0.4) = 0 by norm_num,
      add_zero, min_eq_right hq]
    norm_num
  · unfold frequency_score
    rw [if_neg (by norm_num : ¬ (100:ℕ) = 0)]
    have hone : Real.sqrt ((100:ℕ) : ℝ) / Real.sqrt 100 = 1 := by
      have : ((100:ℕ) : ℝ) = (100 : ℝ) := by norm_num
      rw [this, div_self (by rw [sqrt_hundred]; norm_num)]
    rw [hone]
    norm_num

/-- Witness for C3: the formula clause applied at `n = 50`, `c = 0`. -/
theorem C3_witness :
    1 ≤ (50:ℕ) ∧
    frequency_score 50 0 =
      min 1 (min 1 (Real.sqrt ((50:ℕ) : ℝ) / Real.sqrt 100) +
        min 0.2 (((0:ℕ) : ℝ) / ((50:ℕ) : ℝ) * 0.4)) :=
  ⟨by norm_num, C3_frequency_score_formula.1 50 0 (by norm_num)⟩

/-! ### Batch min/max and score normalization in `detect_anomalies` -/

lemma foldl_min_le_init (l : List ℝ) : ∀ a : ℝ, l.foldl min a ≤ a := by
  induction l with
  | nil => intro a; exact le_refl a
  | cons x xs ih => intro a; exact le_trans (ih (min a x)) (min_le_left a x)

lemma foldl_min_le (l : List ℝ) : ∀ (a : ℝ) {x : ℝ}, x ∈ l → l.foldl min a ≤ x := by
  induction l with
  | nil => intro a x hx; cases hx
  | cons y ys ih =>
    intro a x hx
    rcases List.mem_cons.mp hx with rfl | hx
    · exact le_trans (foldl_min_le_init ys (min a x)) (min_le_right a x)
    · exact ih (min a y) hx

lemma le_foldl_max_init (l : List ℝ) : ∀ a : ℝ, a ≤ l.foldl max a := by
  induction l with
  | nil => intro a; exact le_refl a
  | cons x xs ih => intro a; exact le_trans (le_max_left a x) (ih (max a x))

lemma le_foldl_max (l : List ℝ) : ∀ (a : ℝ) {x : ℝ}, x ∈ l → x ≤ l.foldl max a := by
  induction l with
  | nil => intro a x hx; cases hx
  | cons y ys ih =>
    intro a x hx
    rcases List.mem_cons.mp hx with rfl | hx
    · exact le_trans (le_max_right a x) (le_foldl_max_init ys (max a x))
    · exact ih (max a y) hx

lemma foldl_min_all_eq {l : List ℝ} : ∀ {a : ℝ}, (∀ x ∈ l, x = a) → l.foldl min a = a := by
  induction l with
  | nil => intro a _; rfl
  | cons y ys ih =>
    intro a h
    have hy : y = a := h y (by simp)
    rw [List.foldl_cons, hy, min_self]
    exact ih (fun x hx => h x (by simp [hx]))

lemma foldl_max_all_eq {l : List ℝ} : ∀ {a : ℝ}, (∀ x ∈ l, x = a) → l.foldl max a = a := by
  induction l with
  | nil => intro a _; rfl
  | cons y ys ih =>
    intro a h
    have hy : y = a := h y (by simp)
    rw [List.foldl_cons, hy, max_self]
    exact ih (fun x hx => h x (by simp [hx]))

lemma batchMin_le {scores : List ℝ} {s : ℝ} (hs : s ∈ scores) : batchMin scores ≤ s :=
  foldl_min_le scores _ hs

lemma le_batchMax {scores : List ℝ} {s : ℝ} (hs : s ∈ scores) : s ≤ batchMax scores :=
  le_foldl_max scores _ hs

lemma batchMax_sub_batchMin_eq_zero_of_all_eq {scores : List ℝ}
    (hall : ∀ s1 ∈ scores, ∀ s2 ∈ scores, s1 = s2) :
    batchMax scores - batchMin scores = 0 := by
  cases scores with
  | nil => simp [batchMax, batchMin]
  | cons x xs =>
    have hx : ∀ y ∈ x :: xs, y = x := fun y hy => hall y hy x (by simp)
    unfold batchMax batchMin
    rw [show (x :: xs).headD 0 = x from rfl, List.foldl_cons, List.foldl_cons,
      min_self, max_self, foldl_min_all_eq (fun y hy => hx y (by simp [hy])),
      foldl_max_all_eq (fun y hy => hx y (by simp [hy])), sub_self]

/-- C4: whenever `detect_anomalies` returns a batch, every returned anomaly
probability is `1 − (score − min)/(max − min)` of its raw score (when the
batch has `min < max`), lies in `[0, 1]`, is antitone in the raw score, and
is `0` for every sample when all scores in the batch are equal. -/
theorem C4_detect_anomalies_normalization {α : Type}
    (st : AnomalyDetectionModelState) (predictF : α → ℤ) (scoreF : α → ℝ)
    (X : List α) (preds : List ℤ) (scores probs : List ℝ)
    (h : detect_anomalies st predictF scoreF X = .ok (preds, scores, probs)) :
    scores = X.map scoreF ∧
    probs = normalizeScores scores ∧
    (∀ i si, scores.get? i = some si → batchMin scores < batchMax scores →
      probs.get? i =
        some (1 - (si - batchMin scores) / (batchMax scores - batchMin scores))) ∧
    (∀ p ∈ probs, 0 ≤ p ∧ p ≤ 1) ∧
    (∀ i j si sj pi pj, scores.get? i = some si → scores.get? j = some sj →
      probs.get? i = some pi → probs.get? j = some pj → si ≤ sj → pj ≤ pi) ∧
    ((∀ s1 ∈ scores, ∀ s2 ∈ scores, s1 = s2) → ∀ p ∈ probs, p = 0) := by
  unfold detect_anomalies at h
  split at h
  · exact absurd h (by simp)
  · split at h
    · exact absurd h (by simp)
    · split at h
      · exact absurd h (by simp)
      · split at h
        · exact absurd h (by simp)
        · rw [Except.ok.injEq, Prod.mk.injEq, Prod.mk.injEq] at h
          obtain ⟨-, hsc, hpr⟩ := h
          subst hsc
          subst hpr
          refine ⟨rfl, rfl, ?_, ?_, ?_, ?_⟩
          · intro i si hsi hlt
            unfold normalizeScores
            rw [if_pos (by linarith), List.get?_map, hsi]
            rfl
          · intro p hp
            unfold normalizeScores at hp
            split at hp
            · next hgt =>
              obtain ⟨s, hs, rfl⟩ := List.mem_map.mp hp
              have h1 : batchMin (X.map scoreF) ≤ s := batchMin_le hs
              have h2 : s ≤ batchMax (X.map scoreF) := le_batchMax hs
              constructor
              · have hd : (s - batchMin (X.map scoreF)) /
                    (batchMax (X.map scoreF) - batchMin (X.map scoreF)) ≤ 1 := by
                  rw [div_le_one hgt]; linarith
                linarith
              · have hd : 0 ≤ (s - batchMin (X.map scoreF)) /
                    (batchMax (X.map scoreF) - batchMin (X.map scoreF)) :=
                  div_nonneg (by linarith) (le_of_lt hgt)
                linarith
            · obtain ⟨s, hs, rfl⟩ := List.mem_map.mp hp
              norm_num
          · intro i j si sj pi pj hsi hsj hpi hpj hle
            unfold normalizeScores at hpi hpj
            split at hpi
            · next hgt =>
              rw [if_pos hgt] at hpj
              rw [List.get?_map, hsi] at hpi
              rw [List.get?_map, hsj] at hpj
              have hpi2 : (1 : ℝ) - (si - batchMin (X.map scoreF)) /
                  (batchMax (X.map scoreF) - batchMin (X.map scoreF)) = pi :=
                Option.some.inj hpi
              have hpj2 : (1 : ℝ) - (sj - batchMin (X.map scoreF)) /
                  (batchMax (X.map scoreF) - batchMin (X.map scoreF)) = pj :=
                Option.some.inj hpj
              have hdiv : (si - batchMin (X.map scoreF)) /
                    (batchMax (X.map scoreF) - batchMin (X.map scoreF)) ≤
                  (sj - batchMin (X.map scoreF)) /
                    (batchMax (X.map scoreF) - batchMin (X.map scoreF)) :=
                (div_le_div_right hgt).mpr (by linarith)
              linarith
            · next hgt =>
              rw [if_neg hgt] at hpj
              rw [List.get?_map, hsi] at hpi
              rw [List.get?_map, hsj] at hpj
              have hpi2 : (0 : ℝ) = pi := Option.some.inj hpi
              have hpj2 : (0 : ℝ) = pj := Option.some.inj hpj
              rw [← hpi2, ← hpj2]
          · intro hall p hp
            unfold normalizeScores at hp
            split at hp
            · next hgt =>
              rw [batchMax_sub_batchMin_eq_zero_of_all_eq hall] at hgt
              norm_num at hgt
            · obtain ⟨s, hs, rfl⟩ := List.mem_map.mp hp
              rfl

/-- Witness for C4: a trained model on the two-sample batch with raw scores
`[0, 1]`. -/
theorem C4_witness :
    detect_anomalies demoAnomalyTrained (fun _ : ℕ => (1:ℤ)) (fun n : ℕ => (n:ℝ)) [0, 1] =
      .ok ([0, 1].map (fun _ : ℕ => (1:ℤ)), [0, 1].map (fun n : ℕ => (n:ℝ)),
        normalizeScores ([0, 1].map (fun n : ℕ => (n:ℝ)))) ∧
    (∀ p ∈ normalizeScores ([0, 1].map (fun n : ℕ => (n:ℝ))), 0 ≤ p ∧ p ≤ 1) := by
  have hdet : detect_anomalies demoAnomalyTrained (fun _ : ℕ => (1:ℤ))
      (fun n : ℕ => (n:ℝ)) [0, 1] =
      .ok ([0, 1].map (fun _ : ℕ => (1:ℤ)), [0, 1].map (fun n : ℕ => (n:ℝ)),
        normalizeScores ([0, 1].map (fun n : ℕ => (n:ℝ)))) := rfl
  exact ⟨hdet,
    (C4_detect_anomalies_normalization demoAnomalyTrained _ _ _ _ _ _ hdet).2.2.2.1⟩

/-- C8: inference on a freshly constructed (never trained, never loaded)
model fails with a not-fitted/not-ready error for both
`AnomalyDetectionModel.detect_anomalies` and
`FailurePredictionModel.predict_failure_risk`, and in particular never
returns a normal (empty or not) result. -/
theorem C8_untrained_model_errors {α : Type} (alg : AnomalyAlgorithm) (c : ℚ)
    (mt : FailureModelType) (predictF : α → ℤ) (scoreF : α → ℝ)
    (clfPredict : α → ℤ) (clfProba : α → ℝ) (X : List α) :
    detect_anomalies (anomalyModelInit alg c) predictF scoreF X =
      .error .notFittedError ∧
    (∀ y, detect_anomalies (anomalyModelInit alg c) predictF scoreF X ≠ .ok y) ∧
    predict_failure_risk (failureModelInit mt) clfPredict clfProba X =
      .error .notFittedError ∧
    (∀ y, predict_failure_risk (failureModelInit mt) clfPredict clfProba X ≠ .ok y) := by
  refine ⟨rfl, ?_, rfl, ?_⟩
  · intro y hy
    exact Except.noConfusion hy
  · intro y hy
    exact Except.noConfusion hy

/-! ### Ensembling of the two detectors -/

/-- C7: the building-level ensemble probability is the arithmetic mean of
the two detectors' probabilities at each index, and for detector outputs
`0.9` and `0.3` it equals `0.6` exactly — the corresponding `get_anomalies`
entry carries probability `0.6`, the two component probabilities, and
severity `HIGH`. -/
theorem C7_ensemble_arithmetic_mean :
    (∀ (if_probs svm_probs : List ℝ) (i : ℕ) (x y : ℝ),
      if_probs.get? i = some x → svm_probs.get? i = some y →
      (ensemble_probs if_probs svm_probs).get? i = some ((x + y) / 2)) ∧
    ensemble_probs [0.9] [0.3] = [0.6] ∧
    (∃ e : AnomalyEntry, buildAnomalyEntries [("B")] [0.9] [0.3] = [e] ∧
      e.anomaly_probability = 0.6 ∧ e.if_probability = 0.9 ∧ e.svm_probability = 0.3 ∧
      e.anomaly_severity = "HIGH") := by
  refine ⟨?_, ?_, ?_⟩
  · intro l1 l2 i x y h1 h2
    unfold ensemble_probs
    exact (List.get?_zipWith_eq_some _ _ _ _ _).mpr ⟨x, y, h1, h2, rfl⟩
  · show List.zipWith (fun a b => (a + b) / 2) [0.9] [0.3] = [0.6]
    norm_num
  · refine ⟨{ building_id := ("B")
              anomaly_probability := (0.9 + 0.3) / 2
              anomaly_severity := anomalySeverityOf ((0.9 + 0.3) / 2)
              if_probability := 0.9
              svm_probability := 0.3 }, ?_, by norm_num, rfl, rfl, ?_⟩
    · unfold buildAnomalyEntries ensemble_probs
      simp only [List.zipWith, List.zip, List.filterMap]
      rw [if_pos (show (0.4:ℝ) < (0.9 + 0.3) / 2 by norm_num)]
      simp [List.insertionSort]
    · unfold anomalySeverityOf
      rw [if_neg (by norm_num), if_pos (by norm_num)]

/-- Witness for C7: the mean clause applied at the singleton probability
vectors `[0.2]` and `[0.4]`. -/
theorem C7_witness :
    ([0.2] : List ℝ).get? 0 = some 0.2 ∧ ([0.4] : List ℝ).get? 0 = some 0.4 ∧
    (ensemble_probs [0.2] [0.4]).get? 0 = some ((0.2 + 0.4) / 2) :=
  ⟨rfl, rfl, C7_ensemble_arithmetic_mean.1 [0.2] [0.4] 0 0.2 0.4 rfl rfl⟩

/-! ### The spike detector -/

lemma flatMap_eq_filter_flatMap {α β : Type} (p : α → Bool) (f : α → List β)
    (l : List α) :
    (l.flatMap (fun x => if p x then f x else [])) = (l.filter p).flatMap f := by
  induction l with
  | nil => rfl
  | cons x xs ih =>
    rw [List.flatMap_cons, List.filter_cons]
    by_cases h : p x = true
    · rw [if_pos h, if_pos h, List.flatMap_cons, ih]
    · rw [if_neg h, if_neg h, ih, List.nil_append]

lemma spikeScan_mem {issues : List (String × ℤ)} {w : ℕ} {t : ℚ} {b : String}
    {a : SpikeAnomaly} (ha : a ∈ spikeScan issues w t b) :
    t ^ 2 < a.z_score_sq ∧
      a.severity = (if 9 < a.z_score_sq then ("CRITICAL") else ("HIGH")) := by
  simp only [spikeScan] at ha
  split at ha
  · exact absurd ha (List.not_mem_nil a)
  · obtain ⟨i, hi, hf⟩ := List.mem_filterMap.mp ha
    split at hf
    · exact Option.noConfusion hf
    · split at hf
      · next hcond =>
        obtain rfl := Option.some.inj hf
        exact ⟨hcond, rfl⟩
      · exact Option.noConfusion hf

lemma detect_spike_mem {issues : List (String × ℤ)} {buildings : List String}
    {w : ℕ} {t : ℚ} {a : SpikeAnomaly}
    (ha : a ∈ detect_spike_anomalies issues buildings w t) :
    t ^ 2 < a.z_score_sq ∧
      a.severity = (if 9 < a.z_score_sq then ("CRITICAL") else ("HIGH")) := by
  unfold detect_spike_anomalies at ha
  obtain ⟨b, hb, hmem⟩ := List.mem_flatMap.mp ha
  split at hmem
  · exact absurd hmem (List.not_mem_nil a)
  · exact spikeScan_mem hmem

/-- C5 (amended): `detect_spike_anomalies` behaves exactly as the claim's
scan — series built from min to max day, `≥ 2·window_days` days required,
centered rolling mean/std, skip zero/undefined std, flag `|z| > threshold`,
severity `CRITICAL` iff `|z| > 3` — except that it additionally excludes
every building with fewer than `window_days` issues before building the
series: it equals the claim's detector run on the buildings with at least
`window_days` issues. -/
theorem C5_spike_detector (issues : List (String × ℤ)) (buildings : List String)
    (w : ℕ) (t : ℚ) :
    detect_spike_anomalies issues buildings w t =
      claimSpikeAnomalies issues
        (buildings.filter (fun b => decide (w ≤ (buildingIssueDays issues b).length)))
        w t ∧
    (∀ a ∈ detect_spike_anomalies issues buildings w t,
      t ^ 2 < a.z_score_sq ∧
        a.severity = (if 9 < a.z_score_sq then ("CRITICAL") else ("HIGH"))) := by
  constructor
  · have hpt : ∀ b : String,
        (if (buildingIssueDays issues b).length < w then []
          else spikeScan issues w t b) =
        (if (decide (w ≤ (buildingIssueDays issues b).length) : Bool) = true
          then spikeScan issues w t b else []) := by
      intro b
      by_cases h : (buildingIssueDays issues b).length < w
      · rw [if_pos h, if_neg (by simpa using not_le.mpr h)]
      · rw [if_neg h, if_pos (by simpa using not_lt.mp h)]
    unfold detect_spike_anomalies claimSpikeAnomalies
    simp only [hpt]
    exact flatMap_eq_filter_flatMap _ _ buildings
  · exact fun a ha => detect_spike_mem ha

unseal Rat.add Rat.mul Rat.inv Rat.sub Rat.ofScientific in
/-- C5 counterexample: a building with 6 issues (fewer than the default
`window_days = 7`) spread over a 21-day series.  The claim's procedure
flags day 10 (`z² = 36/7 > 4`), but the source's extra issue-count filter
excludes the building entirely, so `detect_spike_anomalies` returns no
anomalies. -/
theorem C5_counterexample :
    detect_spike_anomalies spikeIssuesSix [("B")] 7 2 = [] ∧
    claimSpikeAnomalies spikeIssuesSix [("B")] 7 2 =
      [⟨("B"), 10, 4, 4 / 7, 36 / 7, ("HIGH")⟩] := by
  constructor
  · decide
  · decide

unseal Rat.add Rat.mul Rat.inv Rat.sub Rat.ofScientific in
/-- Witness for C5: a nine-issue building whose day-10 burst is flagged
with severity `HIGH` by the detector itself. -/
theorem C5_witness :
    (⟨("B"), 10, 5, 5 / 7, 36 / 7, ("HIGH")⟩ : SpikeAnomaly) ∈
      detect_spike_anomalies spikeIssuesNine [("B")] 7 2 ∧
    (2:ℚ) ^ 2 < (36 / 7 : ℚ) ∧
    (("HIGH") : String) = (if 9 < (36 / 7 : ℚ) then ("CRITICAL") else ("HIGH")) := by
  have hmem : (⟨("B"), 10, 5, 5 / 7, 36 / 7, ("HIGH")⟩ : SpikeAnomaly) ∈
      detect_spike_anomalies spikeIssuesNine [("B")] 7 2 := by decide
  have h := (C5_spike_detector spikeIssuesNine [("B")] 7 2).2 _ hmem
  exact ⟨hmem, h.1, h.2⟩

/-! ### The temporal-clustering detector -/

lemma temporalGaps_length (issues : List (String × ℤ)) (b : String) :
    (temporalGaps issues b).length = (buildingIssueHours issues b).length - 1 := by
  unfold temporalGaps
  rw [List.length_zipWith, List.length_tail, List.length_insertionSort]
  exact min_eq_right (Nat.sub_le _ _)

lemma gapVar_nonneg (gaps : List ℤ) : 0 ≤ gapVar gaps := by
  unfold gapVar
  apply div_nonneg
  · apply List.sum_nonneg
    intro x hx
    obtain ⟨g, hg, rfl⟩ := List.mem_map.mp hx
    positivity
  · positivity

lemma listSum_all_eq {l : List ℚ} {c : ℚ} : (∀ x ∈ l, x = c) → l.sum = c * l.length := by
  induction l with
  | nil => intro _; simp
  | cons y ys ih =>
    intro h
    rw [List.sum_cons, h y (by simp), ih (fun x hx => h x (by simp [hx]))]
    push_cast [List.length_cons]
    ring

lemma gapMean_all_eq {gaps : List ℤ} {c : ℤ} (hne : gaps ≠ [])
    (h : ∀ g ∈ gaps, g = c) : gapMean gaps = (c : ℚ) := by
  unfold gapMean
  have hcast : ∀ x ∈ gaps.map (fun g : ℤ => (g : ℚ)), x = (c : ℚ) := by
    intro x hx
    obtain ⟨y, hy, rfl⟩ := List.mem_map.mp hx
    exact_mod_cast h y hy
  rw [listSum_all_eq hcast, List.length_map]
  have hlen : (gaps.length : ℚ) ≠ 0 := by
    cases gaps with
    | nil => exact absurd rfl hne
    | cons g gs => exact Nat.cast_ne_zero.mpr (by simp)
  field_simp

lemma gapVar_all_eq_zero {gaps : List ℤ}
    (h : ∀ g1 ∈ gaps, ∀ g2 ∈ gaps, g1 = g2) : gapVar gaps = 0 := by
  cases gaps with
  | nil => simp [gapVar]
  | cons g gs =>
    have hc : ∀ x ∈ g :: gs, x = g := fun x hx => h x hx g (by simp)
    have hmean : gapMean (g :: gs) = (g : ℚ) := gapMean_all_eq (by simp) hc
    have hsum0 : ((g :: gs).map
        (fun y : ℤ => ((y : ℚ) - gapMean (g :: gs)) ^ 2)).sum = 0 := by
      apply List.sum_eq_zero
      intro x hx
      obtain ⟨y, hy, rfl⟩ := List.mem_map.mp hx
      rw [hmean, hc y hy]
      ring
    unfold gapVar
    rw [hsum0, zero_div]

lemma temporalCheck_some {b : String} {μ v : ℚ} {p : ℕ × ℤ} {a : TemporalAnomaly}
    (h : temporalCheck b μ v p = some a) :
    v ≠ 0 ∧ (p.2 : ℚ) < μ ∧ 4 * v < (μ - (p.2 : ℚ)) ^ 2 ∧
      a = { building_id := b
            time_index := p.1
            inter_arrival_hours := p.2
            expected_hours := μ
            z_score_sq := (μ - (p.2 : ℚ)) ^ 2 / v
            severity := if 9 * v < (μ - (p.2 : ℚ)) ^ 2 then ("HIGH") else ("MEDIUM") } := by
  unfold temporalCheck at h
  split at h
  · exact Option.noConfusion h
  · next hv =>
    split at h
    · next hcond => exact ⟨hv, hcond.1, hcond.2, (Option.some.inj h).symm⟩
    · exact Option.noConfusion h

lemma temporalScan_eq_filterMap {issues : List (String × ℤ)} {b : String}
    (h5 : 5 ≤ (buildingIssueHours issues b).length) :
    temporalScan issues b = (temporalGaps issues b).enum.filterMap
      (temporalCheck b (gapMean (temporalGaps issues b))
        (gapVar (temporalGaps issues b))) := by
  have hlen := temporalGaps_length issues b
  simp only [temporalScan]
  rw [if_neg (not_lt.mpr h5), if_neg (not_lt.mpr (by omega))]

lemma temporalScan_mem {issues : List (String × ℤ)} {b : String} {a : TemporalAnomaly}
    (ha : a ∈ temporalScan issues b) :
    ∃ p ∈ (temporalGaps issues b).enum,
      temporalCheck b (gapMean (temporalGaps issues b))
        (gapVar (temporalGaps issues b)) p = some a := by
  simp only [temporalScan] at ha
  split at ha
  · exact absurd ha (List.not_mem_nil a)
  · split at ha
    · exact absurd ha (List.not_mem_nil a)
    · exact List.mem_filterMap.mp ha

/-- C6: for every building with at least 5 issues,
`detect_temporal_anomalies` reports a `temporal_clustering` anomaly exactly
for those inter-arrival gaps lying more than two standard deviations below
the gap mean (`z < −2`), with severity `HIGH` iff `z < −3` (i.e. `z² > 9`)
and `MEDIUM` otherwise; when the std of the gaps is zero — in particular
when all gaps are equal — no gap is tested and the building produces zero
anomalies. -/
theorem C6_temporal_detector :
    (∀ (issues : List (String × ℤ)) (buildings : List String),
      detect_temporal_anomalies issues buildings =
        buildings.flatMap (temporalScan issues)) ∧
    (∀ (issues : List (String × ℤ)) (b : String),
      (buildingIssueHours issues b).length < 5 → temporalScan issues b = []) ∧
    (∀ (issues : List (String × ℤ)) (b : String),
      5 ≤ (buildingIssueHours issues b).length →
      ∀ (i : ℕ) (g : ℤ), (temporalGaps issues b).get? i = some g →
        ((∃ a ∈ temporalScan issues b, a.time_index = i) ↔
          (gapVar (temporalGaps issues b) ≠ 0 ∧
            (g : ℚ) < gapMean (temporalGaps issues b) ∧
            4 * gapVar (temporalGaps issues b) <
              (gapMean (temporalGaps issues b) - (g : ℚ)) ^ 2))) ∧
    (∀ (issues : List (String × ℤ)) (b : String),
      ∀ a ∈ temporalScan issues b,
        4 < a.z_score_sq ∧
          a.severity = (if 9 < a.z_score_sq then ("HIGH") else ("MEDIUM"))) ∧
    (∀ (issues : List (String × ℤ)) (b : String),
      (∀ g1 ∈ temporalGaps issues b, ∀ g2 ∈ temporalGaps issues b, g1 = g2) →
      temporalScan issues b = []) := by
  refine ⟨fun _ _ => rfl, ?_, ?_, ?_, ?_⟩
  · intro issues b h
    simp only [temporalScan]
    rw [if_pos h]
  · intro issues b h5 i g hg
    rw [List.get?_eq_getElem?] at hg
    constructor
    · rintro ⟨a, ha, hidx⟩
      obtain ⟨p, hp, hchk⟩ := temporalScan_mem ha
      obtain ⟨hv, hlt, hzs, hav⟩ := temporalCheck_some hchk
      have hpget : (temporalGaps issues b)[p.1]? = some p.2 :=
        (List.mem_enum_iff_getElem? (l := temporalGaps issues b)).mp hp
      have hpi : p.1 = i := by rw [hav] at hidx; exact hidx
      rw [hpi] at hpget
      have hpg : p.2 = g := Option.some.inj (hpget.symm.trans hg)
      rw [hpg] at hlt hzs
      exact ⟨hv, hlt, hzs⟩
    · rintro ⟨hv, hlt, hzs⟩
      refine ⟨{ building_id := b
                time_index := i
                inter_arrival_hours := g
                expected_hours := gapMean (temporalGaps issues b)
                z_score_sq := (gapMean (temporalGaps issues b) - (g : ℚ)) ^ 2 /
                  gapVar (temporalGaps issues b)
                severity := if 9 * gapVar (temporalGaps issues b) <
                    (gapMean (temporalGaps issues b) - (g : ℚ)) ^ 2 then ("HIGH")
                  else ("MEDIUM") }, ?_, rfl⟩
      rw [temporalScan_eq_filterMap h5]
      apply List.mem_filterMap.mpr
      refine ⟨(i, g), ?_, ?_⟩
      · exact (List.mem_enum_iff_getElem? (l := temporalGaps issues b)).mpr hg
      · unfold temporalCheck
        rw [if_neg hv, if_pos (show (((i, g) : ℕ × ℤ).2 : ℚ) <
            gapMean (temporalGaps issues b) ∧
            4 * gapVar (temporalGaps issues b) <
              (gapMean (temporalGaps issues b) - (((i, g) : ℕ × ℤ).2 : ℚ)) ^ 2
          from ⟨hlt, hzs⟩)]
  · intro issues b a ha
    obtain ⟨p, hp, hchk⟩ := temporalScan_mem ha
    obtain ⟨hv, hlt, hzs, hav⟩ := temporalCheck_some hchk
    have hvpos : 0 < gapVar (temporalGaps issues b) :=
      lt_of_le_of_ne (gapVar_nonneg _) (Ne.symm hv)
    constructor
    · rw [hav]
      show (4:ℚ) < (gapMean (temporalGaps issues b) - (p.2 : ℚ)) ^ 2 /
        gapVar (temporalGaps issues b)
      rw [lt_div_iff hvpos]
      linarith
    · rw [hav]
      show (if 9 * gapVar (temporalGaps issues b) <
          (gapMean (temporalGaps issues b) - (p.2 : ℚ)) ^ 2 then ("HIGH")
        else ("MEDIUM")) =
        (if (9:ℚ) < (gapMean (temporalGaps issues b) - (p.2 : ℚ)) ^ 2 /
            gapVar (temporalGaps issues b) then ("HIGH") else ("MEDIUM"))
      refine if_congr ?_ rfl rfl
      rw [lt_div_iff hvpos]
  · intro issues b hall
    have hv := gapVar_all_eq_zero hall
    simp only [temporalScan]
    split
    · rfl
    · split
      · rfl
      · apply List.filterMap_eq_nil.mpr
        intro p hp
        unfold temporalCheck
        rw [if_pos hv]

/-- Witness for C6: five issues arriving exactly 24 hours apart — all gaps
equal, so the detector reports nothing for the building. -/
theorem C6_witness :
    (∀ g1 ∈ temporalGaps temporalIssuesUniform ("B"),
      ∀ g2 ∈ temporalGaps temporalIssuesUniform ("B"), g1 = g2) ∧
    temporalScan temporalIssuesUniform ("B") = [] := by
  have hall : ∀ g1 ∈ temporalGaps temporalIssuesUniform ("B"),
      ∀ g2 ∈ temporalGaps temporalIssuesUniform ("B"), g1 = g2 := by decide
  exact ⟨hall, C6_temporal_detector.2.2.2.2 temporalIssuesUniform ("B") hall⟩

/-! ### The anomaly feature engineer -/

lemma listMeanR_nonneg {xs : List ℝ} (h : ∀ x ∈ xs, 0 ≤ x) : 0 ≤ listMeanR xs :=
  div_nonneg (List.sum_nonneg h) (Nat.cast_nonneg _)

lemma dailyCountsOf_nonneg (issues : List IssueRec) (b : String) :
    ∀ x ∈ dailyCountsOf issues b, 0 ≤ x := by
  intro x hx
  obtain ⟨n, hn, rfl⟩ := List.mem_map.mp hx
  exact Nat.cast_nonneg n

/-- C9 counterexample: a building with daily counts `[1, 1, 1, 5]` (mean 2,
sample std 2).  The engineered `issue_frequency_variance` is
`2/(2+1) = 2/3`, not the claimed coefficient of variation
`std/mean = 2/2 = 1`. -/
theorem C9_counterexample :
    (anomalyFeaturesOf (fun _ : ℤ => 0) featIssuesDemo ("B")).issue_frequency_variance ≠
      (sampleStd (dailyCountsOf featIssuesDemo ("B"))).map
        (fun s => s / listMeanR (dailyCountsOf featIssuesDemo ("B"))) ∧
    (anomalyFeaturesOf (fun _ : ℤ => 0) featIssuesDemo ("B")).issue_frequency_variance =
      some (2 / 3) ∧
    (sampleStd (dailyCountsOf featIssuesDemo ("B"))).map
      (fun s => s / listMeanR (dailyCountsOf featIssuesDemo ("B"))) = some 1 := by
  have hnat : dailyCountNats featIssuesDemo ("B") = [1, 1, 1, 5] := by decide
  have hdc : dailyCountsOf featIssuesDemo ("B") = [(1:ℝ), 1, 1, 5] := by
    unfold dailyCountsOf
    rw [hnat]
    norm_num
  have hmean : listMeanR [(1:ℝ), 1, 1, 5] = 2 := by
    unfold listMeanR
    norm_num
  have hvar : sampleVarR [(1:ℝ), 1, 1, 5] = 4 := by
    unfold sampleVarR
    rw [hmean]
    norm_num
  have hstd : sampleStd [(1:ℝ), 1, 1, 5] = some 2 := by
    unfold sampleStd
    rw [if_neg (by norm_num), hvar,
      show (4:ℝ) = 2 ^ 2 by norm_num, Real.sqrt_sq (by norm_num : (0:ℝ) ≤ 2)]
  have hfeat : (anomalyFeaturesOf (fun _ : ℤ => 0) featIssuesDemo ("B")).issue_frequency_variance =
      some (2 / 3) := by
    unfold anomalyFeaturesOf
    rw [if_neg (by decide :
      ¬ (featIssuesDemo.filter (fun i => i.building_id = ("B"))).length = 0)]
    show (sampleStd (dailyCountsOf featIssuesDemo ("B"))).map
      (fun s => s / (listMeanR (dailyCountsOf featIssuesDemo ("B")) + 1)) = some (2 / 3)
    rw [hdc, hstd, Option.map_some', hmean]
    norm_num
  have hclaim : (sampleStd (dailyCountsOf featIssuesDemo ("B"))).map
      (fun s => s / listMeanR (dailyCountsOf featIssuesDemo ("B"))) = some 1 := by
    rw [hdc, hstd, Option.map_some', hmean]
    norm_num
  refine ⟨?_, hfeat, hclaim⟩
  rw [hfeat, hclaim]
  intro hcontra
  have h23 : (2 / 3 : ℝ) = 1 := Option.some.inj hcontra
  norm_num at h23

/-- C9 (amended): a building with zero issues gets all five anomaly
features set to 0; for a building with issues, `issue_frequency_variance`
is the sample std of its daily issue counts divided by `(mean + 1)` — not
by the mean — and `issue_severity_variance` is the same statistic over the
issue severities; `daily_issue_std` is the sample std of the daily counts,
and the frequency coefficient is nonnegative. -/
theorem C9_anomaly_features (isoWeek : ℤ → ℤ) (issues : List IssueRec) (b : String) :
    ((issues.filter (fun i => i.building_id = b)).length = 0 →
      anomalyFeaturesOf isoWeek issues b =
        { issue_frequency_variance := some 0
          issue_severity_variance := some 0
          inter_arrival_variance := 0
          daily_issue_std := some 0
          weekly_issue_coefficient_variation := 0 }) ∧
    (2 ≤ (dailyCountsOf issues b).length →
      (anomalyFeaturesOf isoWeek issues b).issue_frequency_variance =
        some (Real.sqrt (sampleVarR (dailyCountsOf issues b)) /
          (listMeanR (dailyCountsOf issues b) + 1)) ∧
      (anomalyFeaturesOf isoWeek issues b).daily_issue_std =
        some (Real.sqrt (sampleVarR (dailyCountsOf issues b))) ∧
      (∀ v, (anomalyFeaturesOf isoWeek issues b).issue_frequency_variance = some v →
        0 ≤ v)) ∧
    (2 ≤ (severitiesOf issues b).length →
      (anomalyFeaturesOf isoWeek issues b).issue_severity_variance =
        some (Real.sqrt (sampleVarR (severitiesOf issues b)) /
          (listMeanR (severitiesOf issues b) + 1))) := by
  refine ⟨?_, ?_, ?_⟩
  · intro h0
    unfold anomalyFeaturesOf
    rw [if_pos h0]
  · intro h2
    by_cases h0 : (issues.filter (fun i => i.building_id = b)).length = 0
    · exfalso
      have hnil : dailyCountsOf issues b = [] := by
        unfold dailyCountsOf dailyCountNats
        rw [List.length_eq_zero.mp h0]
        rfl
      rw [hnil] at h2
      norm_num at h2
    · have hstd : sampleStd (dailyCountsOf issues b) =
          some (Real.sqrt (sampleVarR (dailyCountsOf issues b))) := by
        unfold sampleStd
        rw [if_neg (by omega)]
      have hfreq : (anomalyFeaturesOf isoWeek issues b).issue_frequency_variance =
          some (Real.sqrt (sampleVarR (dailyCountsOf issues b)) /
            (listMeanR (dailyCountsOf issues b) + 1)) := by
        unfold anomalyFeaturesOf
        rw [if_neg h0]
        show (sampleStd (dailyCountsOf issues b)).map
          (fun s => s / (listMeanR (dailyCountsOf issues b) + 1)) = _
        rw [hstd, Option.map_some']
      refine ⟨hfreq, ?_, ?_⟩
      · unfold anomalyFeaturesOf
        rw [if_neg h0]
        exact hstd
      · intro v hv
        rw [hfreq] at hv
        obtain rfl := Option.some.inj hv
        have hm : 0 ≤ listMeanR (dailyCountsOf issues b) :=
          listMeanR_nonneg (dailyCountsOf_nonneg issues b)
        exact div_nonneg (Real.sqrt_nonneg _) (by linarith)
  · intro h2
    have h0 : ¬ (issues.filter (fun i => i.building_id = b)).length = 0 := by
      intro h0
      have hnil : severitiesOf issues b = [] := by
        unfold severitiesOf
        rw [List.length_eq_zero.mp h0]
        rfl
      rw [hnil] at h2
      norm_num at h2
    have hstd : sampleStd (severitiesOf issues b) =
        some (Real.sqrt (sampleVarR (severitiesOf issues b))) := by
      unfold sampleStd
      rw [if_neg (by omega)]
    unfold anomalyFeaturesOf
    rw [if_neg h0]
    show (sampleStd (severitiesOf issues b)).map
      (fun s => s / (listMeanR (severitiesOf issues b) + 1)) = _
    rw [hstd, Option.map_some']

/-- Witness for C9 at the `[1, 1, 1, 5]` daily-count building. -/
theorem C9_witness :
    2 ≤ (dailyCountsOf featIssuesDemo ("B")).length ∧
    (anomalyFeaturesOf (fun _ : ℤ => 0) featIssuesDemo ("B")).issue_frequency_variance =
      some (Real.sqrt (sampleVarR (dailyCountsOf featIssuesDemo ("B"))) /
        (listMeanR (dailyCountsOf featIssuesDemo ("B")) + 1)) := by
  have h2 : 2 ≤ (dailyCountsOf featIssuesDemo ("B")).length := by
    unfold dailyCountsOf
    rw [List.length_map]
    decide
  exact ⟨h2, ((C9_anomaly_features (fun _ : ℤ => 0) featIssuesDemo ("B")).2.1 h2).1⟩

end CIIS

